/-
Verification of the schwab-jobs repository: a shallow embedding of the
prompt-generation code of src/App.js (generateLocalPrompt, generatePrompt,
generateCliCommand) together with a model, taken from the specification, of
the job store and search backend (crawler.py, which is not part of src/).
JavaScript strings are embedded as lists of characters, so that template
interpolation becomes list concatenation and substring(0, n) becomes take n.
-/
import Mathlib

set_option maxRecDepth 16384

namespace SchwabJobs

/-- JavaScript strings are modelled as lists of characters. -/
abbrev Str := List Char

/-- The user profile of src/App.js lines 324-331: six string fields. -/
structure Profile where
  name : Str
  email : Str
  phone : Str
  location : Str
  linkedin : Str
  github : Str
deriving DecidableEq, Repr

/-- A job record as rendered by the frontend and described in spec §3.
`description` is optional (the source reads it with `?.`); `ingestedAt`
is the spec §3 ingestion timestamp used by the store model. -/
structure JobRecord where
  req_id : Str
  title : Str
  location : Str
  pay_range : Str
  tech_keywords : Str
  description : Option Str
  ingestedAt : Nat
deriving DecidableEq, Repr

/-- The initial profile state of src/App.js lines 324-331. -/
def initialProfile : Profile :=
  { name := "Scott D. Weeden".data
    email := "scott.weeden@email.com".data
    phone := "(555) 123-4567".data
    location := "Portland, OR".data
    linkedin := "linkedin.com/in/scottweeden".data
    github := "github.com/scottweeden".data }

/-- The first line of the static tail of the template literal: the newline
after the `jobInfo` interpolation point and the employment-history heading
of src/App.js line 402. -/
def boilerplateHeading : Str :=
  "\nEMPLOYMENT HISTORY (verified from W2 records):".data

/-- The remainder of the static tail: src/App.js lines 403-452. -/
def boilerplateRest : Str :=
  ("\n\n**Fisher Asset Management LLC** | Camas, WA (Remote)\nSenior Software Engineer (2020 - 2021)\n- Compensation: $29K - $154K annually\n- Financial technology solutions and asset management platform development\n- Full-stack development with modern technologies\n\n**Jabil Inc** | St. Petersburg, FL / Portland, OR\nSoftware Engineer (2016 - 2020)  \n- Compensation: $70K - $113K annually\n- Electronics manufacturing systems development\n- Enterprise software engineering and process automation\n- Led technical initiatives and mentored junior developers\n\n**TekSystems, Inc.** | Saint Petersburg, FL\nContract Software Engineer (2014 - 2016)\n- Compensation: $85K - $94K annually\n- Enterprise consulting engagements\n- Multiple client projects across various industries\n\n**ExecuSource LLC** | Portland, OR\nContract Engineer (2023)\n- Technical consulting engagements\n\nRESUME REQUIREMENTS:\n\n1. **LaTeX Design:**\n   - Create a unique, modern two-column or sidebar layout\n   - Use TikZ for subtle visual elements\n   - Apply color accents (Schwab blue #0070CD if targeting Schwab)\n   - Ensure ATS-compatibility (parseable text)\n   - Maximum one page\n\n2. **Content:**\n   - Professional summary highlighting 10+ years experience\n   - Skills section matching target job requirements\n   - Quantifiable achievements where possible\n   - Education and certifications section\n\n3. **Technical Requirements:**\n   - Complete, compilable LaTeX document\n   - Use standard TexLive packages only\n   - Document must compile with pdflatex\n\nAfter generating the LaTeX code:\n1. Save as resume.tex\n2. Run: pdflatex resume.tex\n3. Fix any errors and recompile until successful\n\nGenerate the complete LaTeX source code now.").data

/-- The static tail of the template literal of src/App.js lines 401-452:
everything after the `jobInfo` interpolation point, beginning with the
newline that follows it.  Not derived from any input. -/
def staticBoilerplate : Str := boilerplateHeading ++ boilerplateRest

/-- src/App.js lines 381-453, `generateLocalPrompt`: the template literal
with its interpolations, embedded chunk by chunk.  `selectedJob` and
`profile` are the two pieces of component state the closure reads.  An
absent description renders as the text "undefined" (JavaScript semantics of
interpolating `undefined?.substring(0, 500)`); `profile.github` with the fallback "N/A"
substitutes "N/A" exactly when `github` is the empty string. -/
def generateLocalPrompt (profile : Profile) (selectedJob : Option JobRecord) : Str :=
  let jobInfo : Str :=
    match selectedJob with
    | some j =>
        "\nTARGET JOB:\n- Title: ".data ++ j.title
        ++ "\n- Requisition ID: ".data ++ j.req_id
        ++ "\n- Location: ".data ++ j.location
        ++ "\n- Pay Range: ".data ++ j.pay_range
        ++ "\n- Technologies: ".data ++ j.tech_keywords
        ++ "\n- Description: ".data
        ++ (match j.description with
            | some d => d.take 500
            | none => "undefined".data)
        ++ "...\n".data
    | none => []
  "You are an expert resume writer and LaTeX document designer. Create a professional, ATS-optimized resume.\n\nCANDIDATE PROFILE:\n- Name: ".data
  ++ profile.name
  ++ "\n- Location: ".data ++ profile.location
  ++ "\n- Email: ".data ++ profile.email
  ++ "\n- Phone: ".data ++ profile.phone
  ++ "\n- LinkedIn: ".data ++ profile.linkedin
  ++ "\n- GitHub: ".data
  ++ (if profile.github = [] then ("N/A".data) else profile.github)
  ++ "\n".data
  ++ jobInfo
  ++ staticBoilerplate

/-- The profile block of the prompt: the text of the template from its
start through the newline that ends the GitHub line (everything before the
`jobInfo` interpolation point). -/
def profileBlock (profile : Profile) : Str :=
  "You are an expert resume writer and LaTeX document designer. Create a professional, ATS-optimized resume.\n\nCANDIDATE PROFILE:\n- Name: ".data
  ++ profile.name
  ++ "\n- Location: ".data ++ profile.location
  ++ "\n- Email: ".data ++ profile.email
  ++ "\n- Phone: ".data ++ profile.phone
  ++ "\n- LinkedIn: ".data ++ profile.linkedin
  ++ "\n- GitHub: ".data
  ++ (if profile.github = [] then ("N/A".data) else profile.github)
  ++ "\n".data

/-- The target-job block: the `jobInfo` template of src/App.js lines
382-390 for a present job. -/
def targetJobBlock (j : JobRecord) : Str :=
  "\nTARGET JOB:\n- Title: ".data ++ j.title
  ++ "\n- Requisition ID: ".data ++ j.req_id
  ++ "\n- Location: ".data ++ j.location
  ++ "\n- Pay Range: ".data ++ j.pay_range
  ++ "\n- Technologies: ".data ++ j.tech_keywords
  ++ "\n- Description: ".data
  ++ (match j.description with
      | some d => d.take 500
      | none => "undefined".data)
  ++ "...\n".data

/-- The contribution of the optional selected job to the prompt: the
target-job block when present, nothing at all when absent. -/
def jobInfoOf : Option JobRecord → Str
  | some j => targetJobBlock j
  | none => []

/-- Containment: `containsStr s t` holds when `t` occurs contiguously inside `s`. -/
def containsStr (s t : Str) : Prop :=
  ∃ pre suf : Str, s = pre ++ t ++ suf

/-- Executable prefix test on character lists. -/
def isPrefixB : Str → Str → Bool
  | [], _ => true
  | _ :: _, [] => false
  | a :: as, b :: bs => a == b && isPrefixB as bs

/-- Executable substring test on character lists: `listInfixB t s` searches
for `t` at every suffix of `s`. -/
def listInfixB : Str → Str → Bool
  | t, [] => t == []
  | t, c :: cs => isPrefixB t (c :: cs) || listInfixB t cs

/-- src/App.js lines 363-378, `generatePrompt`: the frontend posts to the
backend; on a successful response it shows the backend prompt, and on any
error it falls back to `generateLocalPrompt` and shows that instead.  The
backend interaction is abstracted as the `Except` result of the request. -/
def uiGeneratePrompt (profile : Profile) (selectedJob : Option JobRecord)
    (response : Except ε Str) : Str :=
  match response with
  | .ok prompt => prompt
  | .error _ => generateLocalPrompt profile selectedJob

/-- JavaScript `String.prototype.replace` with a global single-character
pattern: every occurrence of `c` is replaced by `repl`. -/
def replaceAllChar (c : Char) (repl : Str) : Str → Str
  | [] => []
  | x :: xs => (if x = c then repl else [x]) ++ replaceAllChar c repl xs

/-- The escape chain of src/App.js lines 468-471: backslashes doubled,
then double quotes backslash-escaped, then newlines turned into the two
characters backslash-n. -/
def escapedOf (generatedPrompt : Str) : Str :=
  replaceAllChar '\n' "\\n".data
    (replaceAllChar '"' "\\\"".data
      (replaceAllChar '\\' "\\\\".data generatedPrompt))

/-- src/App.js lines 467-475, `generateCliCommand`: the escaped prompt is
cut to its first 500 characters, "..." is appended, and the result is
wrapped in `claude -p "` and a closing quote. -/
def generateCliCommand (generatedPrompt : Str) : Str :=
  let escapedPrompt := (escapedOf generatedPrompt).take 500 ++ "...".data
  "claude -p \"".data ++ escapedPrompt ++ "\"".data

/-- The error taxonomy of spec §7: validation failure, unknown id, and an
unreachable persistence layer. -/
inductive SpecError where
  | validationError
  | notFound
  | storeUnavailable
deriving DecidableEq, Repr

/-- Modelled from the spec: the Record Store of §4.1 (its implementation,
crawler.py, is not under src/).  The durable table of JobRecords is
modelled as a list in insertion order. -/
abbrev Store := List JobRecord

/-- Modelled from the spec: `upsert(record)` of §4.1 — rejects a record
whose `req_id` or `title` is empty with `ValidationError`, replaces the
existing record with the same `req_id` in place, and otherwise appends. -/
def upsert (r : JobRecord) (s : Store) : Except SpecError Store :=
  if r.req_id = [] ∨ r.title = [] then
    .error .validationError
  else if s.any (fun x => decide (x.req_id = r.req_id)) then
    .ok (s.map (fun x => if x.req_id = r.req_id then r else x))
  else
    .ok (s ++ [r])

/-- Modelled from the spec: `get(req_id)` of §4.1 — the record with the
given id, or `none` (`NotFound`). -/
def get (req_id : Str) (s : Store) : Option JobRecord :=
  s.find? (fun x => decide (x.req_id = req_id))

/-- Modelled from the spec: `count()` of §4.1. -/
def count (s : Store) : Nat := s.length

/-- Lexicographic comparison of lists of naturals, used to order
requisition ids ascending. -/
def lexLe : List Nat → List Nat → Bool
  | [], _ => true
  | _ :: _, [] => false
  | a :: as, b :: bs =>
    if a < b then true
    else if b < a then false
    else lexLe as bs

/-- Modelled from the spec: the result order of §4.2 — most recently
ingested first, ties broken by `req_id` ascending (compared by character
code). -/
def jobOrder (a b : JobRecord) : Prop :=
  b.ingestedAt < a.ingestedAt ∨
    (a.ingestedAt = b.ingestedAt ∧
      lexLe (a.req_id.map Char.toNat) (b.req_id.map Char.toNat) = true)

instance : DecidableRel jobOrder := fun a b => by
  unfold jobOrder; infer_instance

/-- Lower-casing of a character list (case-insensitive matching). -/
def toLowerStr (s : Str) : Str := s.map Char.toLower

/-- Whitespace trimming at both ends. -/
def trimStr (s : Str) : Str :=
  ((s.dropWhile (· = ' ')).reverse.dropWhile (· = ' ')).reverse

/-- Splitting a character list on a separator character. -/
def splitOnChar (c : Char) : Str → List Str
  | [] => [[]]
  | x :: xs =>
    let r := splitOnChar c xs
    if x = c then [] :: r
    else
      match r with
      | [] => [[x]]
      | h :: t => (x :: h) :: t

/-- Modelled from the spec: the searchable blob of §2 — title, location,
tech keywords and description concatenated. -/
def blob (r : JobRecord) : Str :=
  r.title ++ " ".data ++ r.location ++ " ".data ++ r.tech_keywords
  ++ " ".data ++ (match r.description with | some d => d | none => [])

/-- Modelled from the spec: one search term matches a record (§4.2) when it
is a case-insensitive substring of the blob, or equals one comma-separated
`tech_keywords` token exactly (case-insensitive). -/
def termMatches (t : Str) (r : JobRecord) : Bool :=
  listInfixB (toLowerStr t) (toLowerStr (blob r)) ||
    (splitOnChar ',' r.tech_keywords).any
      (fun k => toLowerStr (trimStr k) == toLowerStr t)

/-- Modelled from the spec: space-separated terms of a query (§4.2). -/
def queryTerms (q : Str) : List Str :=
  (splitOnChar ' ' (trimStr q)).filter (fun t => ¬ t = [])

/-- Modelled from the spec: multi-term queries are an implicit AND (§4.2). -/
def matchesQuery (q : Str) (r : JobRecord) : Bool :=
  (queryTerms q).all (fun t => termMatches t r)

/-- Modelled from the spec: every term matches the title — the first tier
of the two-tier result order of §4.2. -/
def titleHit (q : Str) (r : JobRecord) : Bool :=
  (queryTerms q).all (fun t => listInfixB (toLowerStr t) (toLowerStr r.title))

/-- Modelled from the spec: `search(query)` of §4.2 — the empty query
returns every record ordered by `jobOrder`; a non-empty query filters by
`matchesQuery` and ranks title matches first. -/
def search (q : Str) (s : Store) : List JobRecord :=
  if q = [] then
    List.insertionSort jobOrder s
  else
    let m := List.insertionSort jobOrder (s.filter (matchesQuery q))
    m.filter (titleHit q) ++ m.filter (fun r => ! titleHit q r)

/-- Modelled from the spec: the Query Service `generatePrompt` of §4.5
(crawler.py is not under src/) — resolves the requisition id via `get`,
failing with `NotFound` for an unknown id, and delegates to the Prompt
Assembler, which §4.4 specifies with the same profile block, target-job
block and boilerplate as the frontend template `generateLocalPrompt`. -/
def backendGeneratePrompt (s : Store) (job_id : Option Str) (p : Profile) :
    Except SpecError Str :=
  match job_id with
  | none => .ok (generateLocalPrompt p none)
  | some k =>
    match get k s with
    | none => .error .notFound
    | some j => .ok (generateLocalPrompt p (some j))

/-- A concrete job record with a three-character description, used to
exercise the truncation rule below its 500-character cap. -/
def job0 : JobRecord :=
  { req_id := "2025-0001".data
    title := "Software Engineer".data
    location := "Austin, TX".data
    pay_range := "$90K - $120K".data
    tech_keywords := "java, python".data
    description := some ("abc".data)
    ingestedAt := 1 }

/-- A concrete profile whose email field is the empty string. -/
def profileEmptyEmail : Profile :=
  { initialProfile with email := [] }

/-- A concrete 501-character prompt: 500 letters followed by a period.  It
contains no backslash, quote or newline, so escaping leaves it unchanged. -/
def longPrompt : Str := List.replicate 500 'a' ++ ['.']

/-- A concrete 516-character prompt, strictly longer than any CLI command
the UI can build. -/
def veryLongPrompt : Str := List.replicate 516 'a'

/-- A concrete valid record used to exercise the upsert-replace contract. -/
def recA : JobRecord :=
  { req_id := "2025-0002".data
    title := "Engineer".data
    location := "Dallas, TX".data
    pay_range := "$100K".data
    tech_keywords := "java".data
    description := none
    ingestedAt := 2 }

/-- A different valid record with the same requisition id as `recA`. -/
def recB : JobRecord :=
  { recA with title := "Lead Engineer".data }

/-- The prompt template decomposes into the profile block, the optional
target-job block, and the static boilerplate, in that order. -/
theorem generateLocalPrompt_decomp (p : Profile) (sel : Option JobRecord) :
    generateLocalPrompt p sel = profileBlock p ++ jobInfoOf sel ++ staticBoilerplate := by
  cases sel <;> rfl

/-- The assembled prompt is never the empty string. -/
theorem generateLocalPrompt_ne_nil (p : Profile) (sel : Option JobRecord) :
    generateLocalPrompt p sel ≠ [] := by
  have hb : staticBoilerplate.length ≠ 0 := by decide
  rw [generateLocalPrompt_decomp]
  intro h
  have hl := congrArg List.length h
  simp only [List.length_append, List.length_nil] at hl
  omega

/-- A contiguous occurrence survives prepending on the left. -/
theorem containsStr_append_left {s t : Str} (x : Str) (h : containsStr s t) :
    containsStr (x ++ s) t := by
  obtain ⟨pre, suf, rfl⟩ := h
  exact ⟨x ++ pre, suf, by simp [List.append_assoc]⟩

/-- A contiguous occurrence survives appending on the right. -/
theorem containsStr_append_right {s t : Str} (x : Str) (h : containsStr s t) :
    containsStr (s ++ x) t := by
  obtain ⟨pre, suf, rfl⟩ := h
  exact ⟨pre, suf ++ x, by simp [List.append_assoc]⟩

/-- A contained string is no longer than its container. -/
theorem containsStr_length_le {s t : Str} (h : containsStr s t) :
    t.length ≤ s.length := by
  obtain ⟨pre, suf, rfl⟩ := h
  simp [List.length_append]
  omega

/-- Soundness of the executable prefix test. -/
theorem isPrefixB_sound : ∀ t s : Str, isPrefixB t s = true → ∃ suf, s = t ++ suf := by
  intro t
  induction t with
  | nil => intro s _; exact ⟨s, rfl⟩
  | cons a as ih =>
    intro s h
    cases s with
    | nil => simp [isPrefixB] at h
    | cons b bs =>
      simp only [isPrefixB, Bool.and_eq_true, beq_iff_eq] at h
      obtain ⟨suf, hsuf⟩ := ih bs h.2
      exact ⟨suf, by simp [h.1, hsuf]⟩

/-- Soundness of the executable substring test. -/
theorem listInfixB_sound : ∀ t s : Str, listInfixB t s = true → containsStr s t := by
  intro t s
  induction s with
  | nil =>
    intro h
    simp only [listInfixB, beq_iff_eq] at h
    exact ⟨[], [], by simp [h]⟩
  | cons c cs ih =>
    intro h
    simp only [listInfixB, Bool.or_eq_true] at h
    rcases h with h | h
    · obtain ⟨suf, hsuf⟩ := isPrefixB_sound _ _ h
      exact ⟨[], suf, by simp [hsuf]⟩
    · obtain ⟨pre, suf, hps⟩ := ih h
      exact ⟨c :: pre, suf, by simp [hps]⟩

/-- Totality of `lexLe`. -/
theorem lexLe_total : ∀ x y : List Nat, lexLe x y = true ∨ lexLe y x = true := by
  intro x
  induction x with
  | nil => intro y; left; rfl
  | cons a as ih =>
    intro y
    cases y with
    | nil => right; rfl
    | cons b bs =>
      by_cases h1 : a < b
      · left; simp [lexLe, h1]
      · by_cases h2 : b < a
        · right; simp [lexLe, h2]
        · have hab : a = b := by omega
          subst hab
          rcases ih bs with h | h
          · left; simpa [lexLe] using h
          · right; simpa [lexLe] using h

/-- Transitivity of `lexLe`. -/
theorem lexLe_trans : ∀ x y z : List Nat,
    lexLe x y = true → lexLe y z = true → lexLe x z = true := by
  intro x
  induction x with
  | nil => intro y z _ _; rfl
  | cons a as ih =>
    intro y z hxy hyz
    cases y with
    | nil => simp [lexLe] at hxy
    | cons b bs =>
      cases z with
      | nil => simp [lexLe] at hyz
      | cons c cs =>
        by_cases hab : a < b
        · by_cases hbc : b < c
          · simp [lexLe, show a < c by omega]
          · by_cases hcb : c < b
            · simp [lexLe, hbc, hcb] at hyz
            · have : b = c := by omega
              subst this
              simp [lexLe, hab]
        · by_cases hba : b < a
          · simp [lexLe, hab, hba] at hxy
          · have : a = b := by omega
            subst this
            simp only [lexLe, if_neg (lt_irrefl a)] at hxy
            by_cases hac : a < c
            · simp [lexLe, hac]
            · by_cases hca : c < a
              · simp [lexLe, hac, hca] at hyz
              · have : a = c := by omega
                subst this
                simp only [lexLe, if_neg (lt_irrefl a)] at hyz ⊢
                exact ih bs cs hxy hyz

/-- Totality of `jobOrder`. -/
theorem jobOrder_total : ∀ a b : JobRecord, jobOrder a b ∨ jobOrder b a := by
  intro a b
  rcases Nat.lt_trichotomy a.ingestedAt b.ingestedAt with h | h | h
  · right; left; exact h
  · rcases lexLe_total (a.req_id.map Char.toNat) (b.req_id.map Char.toNat) with hl | hl
    · left; right; exact ⟨h, hl⟩
    · right; right; exact ⟨h.symm, hl⟩
  · left; left; exact h

/-- Transitivity of `jobOrder`. -/
theorem jobOrder_trans : ∀ a b c : JobRecord,
    jobOrder a b → jobOrder b c → jobOrder a c := by
  intro a b c hab hbc
  rcases hab with h1 | ⟨h1, hl1⟩ <;> rcases hbc with h2 | ⟨h2, hl2⟩
  · left; omega
  · left; omega
  · left; omega
  · right; exact ⟨by omega, lexLe_trans _ _ _ hl1 hl2⟩

/-- Replacing the matching records of a store by `r` preserves the presence
of the requisition id of `r`. -/
theorem any_map_replace (r : JobRecord) :
    ∀ s : Store, s.any (fun x => decide (x.req_id = r.req_id)) = true →
      (s.map (fun x => if x.req_id = r.req_id then r else x)).any
        (fun x => decide (x.req_id = r.req_id)) = true := by
  intro s
  induction s with
  | nil => simp
  | cons x xs ih =>
    intro ha
    simp only [List.any_cons, Bool.or_eq_true, decide_eq_true_eq] at ha
    by_cases hx : x.req_id = r.req_id
    · simp [hx]
    · have hxs : xs.any (fun x => decide (x.req_id = r.req_id)) = true := by
        rcases ha with ha | ha
        · exact absurd ha hx
        · simpa using ha
      simp only [List.map_cons, List.any_cons, if_neg hx, Bool.or_eq_true]
      right
      exact ih hxs

/-- After a successful `upsert r`, some record with the requisition id of `r` is
in the store. -/
theorem upsert_ok_any {r : JobRecord} {s s' : Store}
    (h : upsert r s = .ok s') :
    s'.any (fun x => decide (x.req_id = r.req_id)) = true := by
  unfold upsert at h
  by_cases hv : r.req_id = [] ∨ r.title = []
  · rw [if_pos hv] at h; exact absurd h (by simp)
  · rw [if_neg hv] at h
    by_cases ha : s.any (fun x => decide (x.req_id = r.req_id)) = true
    · rw [if_pos ha] at h
      obtain rfl : s.map (fun x => if x.req_id = r.req_id then r else x) = s' := by
        simpa using h
      exact any_map_replace r s ha
    · rw [if_neg ha] at h
      obtain rfl : s ++ [r] = s' := by simpa using h
      simp

/-- After replacing every record carrying requisition id `k` by `r` (where
`r` itself carries `k`), looking up `k` finds exactly `r`, provided some
record with id `k` was present. -/
theorem get_map_replace (r : JobRecord) (k : Str) (hr : r.req_id = k) :
    ∀ s : Store, s.any (fun x => decide (x.req_id = k)) = true →
      get k (s.map (fun x => if x.req_id = k then r else x)) = some r := by
  intro s
  induction s with
  | nil => simp
  | cons x xs ih =>
    intro ha
    simp only [List.any_cons, Bool.or_eq_true, decide_eq_true_eq] at ha
    by_cases hx : x.req_id = k
    · simp [get, List.find?, hx, hr]
    · have hxs : xs.any (fun x => decide (x.req_id = k)) = true := by
        rcases ha with ha | ha
        · exact absurd ha hx
        · simpa using ha
      simp only [List.map_cons, if_neg hx]
      simpa [get, List.find?, hx] using ih hxs

/-- C4: when no job is selected, the target-job block is omitted entirely —
the prompt is exactly the profile block followed by the static boilerplate,
and (checked on the initial profile) the job-block heading "TARGET JOB"
appears nowhere in the output. -/
theorem c4_absent_job_omits_target_block (p : Profile) :
    generateLocalPrompt p none = profileBlock p ++ staticBoilerplate ∧
    listInfixB ("TARGET JOB".data) (generateLocalPrompt initialProfile none) = false := by
  constructor
  · rw [generateLocalPrompt_decomp]
    simp [jobInfoOf]
  · decide

/-- C5: prompt assembly is a pure total function of the profile and the
optional job — equal inputs give byte-identical output, and assembly always
succeeds with a non-empty string. -/
theorem c5_prompt_assembly_deterministic_total
    (p1 p2 : Profile) (j1 j2 : Option JobRecord) (hp : p1 = p2) (hj : j1 = j2) :
    generateLocalPrompt p1 j1 = generateLocalPrompt p2 j2 ∧
    generateLocalPrompt p1 j1 ≠ [] := by
  subst hp
  subst hj
  exact ⟨rfl, generateLocalPrompt_ne_nil p1 j1⟩

/-- Witness for C5 at the initial profile with no job selected. -/
theorem c5_prompt_assembly_deterministic_total_witness :
    generateLocalPrompt initialProfile none = generateLocalPrompt initialProfile none ∧
    generateLocalPrompt initialProfile none ≠ [] :=
  c5_prompt_assembly_deterministic_total initialProfile initialProfile none none rfl rfl

/-- C6: the assembled prompt is, in fixed order, the profile block, then —
only when a job is present — the target-job block (title, requisition id,
location, pay range, technologies, capped description), then the static
boilerplate, which takes no input. -/
theorem c6_prompt_fixed_block_order (p : Profile) (sel : Option JobRecord) :
    generateLocalPrompt p sel =
      profileBlock p
      ++ (match sel with
          | some j => targetJobBlock j
          | none => [])
      ++ staticBoilerplate := by
  cases sel <;> rfl

/-- C10: whenever the backend request fails — for any error, including an
unknown job id — the frontend substitutes the locally assembled prompt,
which contains the fixed employment-history block and is never empty; the
error itself is not part of the displayed outcome. -/
theorem c10_backend_failure_silent_fallback
    (p : Profile) (sel : Option JobRecord) (e : SpecError) :
    uiGeneratePrompt p sel (.error e) = generateLocalPrompt p sel ∧
    containsStr (uiGeneratePrompt p sel (.error e))
      ("EMPLOYMENT HISTORY (verified from W2 records):".data) ∧
    uiGeneratePrompt p sel (.error e) ≠ [] := by
  refine ⟨rfl, ?_, generateLocalPrompt_ne_nil p sel⟩
  show containsStr (generateLocalPrompt p sel) _
  rw [generateLocalPrompt_decomp]
  refine ⟨profileBlock p ++ jobInfoOf sel ++ "\n".data, boilerplateRest, ?_⟩
  have hh : boilerplateHeading =
      "\n".data ++ "EMPLOYMENT HISTORY (verified from W2 records):".data := rfl
  rw [show staticBoilerplate = boilerplateHeading ++ boilerplateRest from rfl, hh]
  simp [List.append_assoc]

/-- C1 counterexample: the description "abc" of `job0` has 3 ≤ 500 characters,
yet the assembled prompt still carries "..." right after it — the ellipsis
is appended even when nothing was truncated, contradicting the claim that a
short description appears with no ellipsis. -/
theorem c1_short_description_still_gets_ellipsis :
    job0.description = some ("abc".data) ∧
    ("abc".data).length ≤ 500 ∧
    containsStr (generateLocalPrompt initialProfile (some job0))
      ("\n- Description: abc...\n".data) :=
  ⟨rfl, by decide, listInfixB_sound _ _ (by decide)⟩

/-- C1 (amended): the target-job block always shows the first 500
characters of the description followed by "...", whatever the length; for
a description of at most 500 characters the shown text is the description
unchanged, but the ellipsis is nevertheless appended. -/
theorem c1_description_truncated_ellipsis_always
    (p : Profile) (j : JobRecord) (d : Str) (h : j.description = some d) :
    containsStr (generateLocalPrompt p (some j))
      ("\n- Description: ".data ++ d.take 500 ++ "...".data) ∧
    (d.length ≤ 500 → d.take 500 = d) := by
  constructor
  · rw [generateLocalPrompt_decomp]
    refine ⟨profileBlock p
        ++ ("\nTARGET JOB:\n- Title: ".data ++ j.title
          ++ "\n- Requisition ID: ".data ++ j.req_id
          ++ "\n- Location: ".data ++ j.location
          ++ "\n- Pay Range: ".data ++ j.pay_range
          ++ "\n- Technologies: ".data ++ j.tech_keywords),
      "\n".data ++ staticBoilerplate, ?_⟩
    have hdots : ("...\n" : String).data = "...".data ++ "\n".data := rfl
    simp only [jobInfoOf, targetJobBlock, h, hdots]
    simp [List.append_assoc]
  · intro hle
    exact List.take_of_length_le hle

/-- Witness for C1 (amended) at the initial profile and `job0`. -/
theorem c1_description_truncated_ellipsis_always_witness :
    containsStr (generateLocalPrompt initialProfile (some job0))
      ("\n- Description: ".data ++ ("abc".data).take 500 ++ "...".data) ∧
    (("abc".data).length ≤ 500 → ("abc".data).take 500 = "abc".data) :=
  c1_description_truncated_ellipsis_always initialProfile job0 ("abc".data) rfl

/-- C2 counterexample: a profile whose email is the empty string still
produces the "- Email: " line (immediately followed by the phone label),
contradicting the claim that an empty field produces no line. -/
theorem c2_empty_email_still_produces_line :
    profileEmptyEmail.email = [] ∧
    containsStr (generateLocalPrompt profileEmptyEmail none)
      ("\n- Email: \n- Phone: ".data) :=
  ⟨rfl, listInfixB_sound _ _ (by decide)⟩

/-- C2 (amended): the profile block always lists all six fields, each under
its fixed label, whether or not the values are empty; an empty github is
rendered as "N/A", and every other empty field is rendered as a line with
an empty value. -/
theorem c2_profile_block_lists_every_field (p : Profile) (sel : Option JobRecord) :
    containsStr (generateLocalPrompt p sel)
      ("CANDIDATE PROFILE:\n- Name: ".data ++ p.name ++ "\n- Location: ".data) ∧
    containsStr (generateLocalPrompt p sel)
      ("\n- Location: ".data ++ p.location
        ++ "\n- Email: ".data ++ p.email
        ++ "\n- Phone: ".data ++ p.phone
        ++ "\n- LinkedIn: ".data ++ p.linkedin
        ++ "\n- GitHub: ".data
        ++ (if p.github = [] then ("N/A".data) else p.github)
        ++ "\n".data) := by
  constructor
  · rw [generateLocalPrompt_decomp]
    refine ⟨"You are an expert resume writer and LaTeX document designer. Create a professional, ATS-optimized resume.\n\n".data,
      p.location ++ "\n- Email: ".data ++ p.email
        ++ "\n- Phone: ".data ++ p.phone
        ++ "\n- LinkedIn: ".data ++ p.linkedin
        ++ "\n- GitHub: ".data
        ++ (if p.github = [] then ("N/A".data) else p.github)
        ++ "\n".data ++ jobInfoOf sel ++ staticBoilerplate, ?_⟩
    have hsp : ("You are an expert resume writer and LaTeX document designer. Create a professional, ATS-optimized resume.\n\nCANDIDATE PROFILE:\n- Name: " : String).data
        = "You are an expert resume writer and LaTeX document designer. Create a professional, ATS-optimized resume.\n\n".data
          ++ "CANDIDATE PROFILE:\n- Name: ".data := rfl
    simp only [profileBlock, hsp]
    simp [List.append_assoc]
  · rw [generateLocalPrompt_decomp]
    refine ⟨"You are an expert resume writer and LaTeX document designer. Create a professional, ATS-optimized resume.\n\nCANDIDATE PROFILE:\n- Name: ".data
        ++ p.name, jobInfoOf sel ++ staticBoilerplate, ?_⟩
    simp only [profileBlock]
    simp [List.append_assoc]

/-- C3 counterexample: for the unknown requisition id "2025-9999" on an
empty store, the backend request does fail with `NotFound`, but the
frontend `generatePrompt` still emits a prompt — the locally assembled,
non-empty fallback — contradicting the claim that no prompt string reaches
the caller. -/
theorem c3_unknown_id_still_emits_prompt :
    backendGeneratePrompt [] (some ("2025-9999".data)) initialProfile
      = .error SpecError.notFound ∧
    uiGeneratePrompt initialProfile none
        (backendGeneratePrompt [] (some ("2025-9999".data)) initialProfile)
      = generateLocalPrompt initialProfile none ∧
    uiGeneratePrompt initialProfile none
        (backendGeneratePrompt [] (some ("2025-9999".data)) initialProfile)
      ≠ [] :=
  ⟨rfl, rfl, generateLocalPrompt_ne_nil initialProfile none⟩

/-- C3 (amended): for every unknown requisition id the backend
`generatePrompt` fails with the typed `NotFound` error, and the frontend
catches that failure and emits the locally assembled prompt instead, so the
caller always sees a non-empty prompt rather than the error. -/
theorem c3_unknown_id_notfound_then_local_fallback
    (s : Store) (k : Str) (p : Profile) (sel : Option JobRecord)
    (h : get k s = none) :
    backendGeneratePrompt s (some k) p = .error SpecError.notFound ∧
    uiGeneratePrompt p sel (backendGeneratePrompt s (some k) p)
      = generateLocalPrompt p sel ∧
    generateLocalPrompt p sel ≠ [] := by
  have hb : backendGeneratePrompt s (some k) p = .error SpecError.notFound := by
    simp only [backendGeneratePrompt, h]
  refine ⟨hb, ?_, generateLocalPrompt_ne_nil p sel⟩
  rw [hb]
  rfl

/-- Witness for C3 (amended): the empty store with requisition id "X". -/
theorem c3_unknown_id_notfound_then_local_fallback_witness :
    backendGeneratePrompt [] (some ("X".data)) initialProfile
      = .error SpecError.notFound ∧
    uiGeneratePrompt initialProfile (some job0)
        (backendGeneratePrompt [] (some ("X".data)) initialProfile)
      = generateLocalPrompt initialProfile (some job0) ∧
    generateLocalPrompt initialProfile (some job0) ≠ [] :=
  c3_unknown_id_notfound_then_local_fallback [] ("X".data) initialProfile
    (some job0) rfl

/-- C7: upserting two different valid records with the same requisition id
leaves the store holding exactly the second record under that id — a full
replacement, not a merge — and the second upsert does not change the record
count. -/
theorem c7_upsert_same_req_id_replaces
    (r1 r2 : JobRecord) (s s1 s2 : Store)
    (_hne : r1 ≠ r2) (hreq : r1.req_id = r2.req_id)
    (h1 : upsert r1 s = .ok s1) (h2 : upsert r2 s1 = .ok s2) :
    get r2.req_id s2 = some r2 ∧ count s2 = count s1 := by
  have hany : s1.any (fun x => decide (x.req_id = r2.req_id)) = true := by
    have h := upsert_ok_any h1
    rwa [hreq] at h
  unfold upsert at h2
  by_cases hv : r2.req_id = [] ∨ r2.title = []
  · rw [if_pos hv] at h2
    exact absurd h2 (by simp)
  · rw [if_neg hv, if_pos hany] at h2
    obtain rfl : s1.map (fun x => if x.req_id = r2.req_id then r2 else x) = s2 := by
      simpa using h2
    exact ⟨get_map_replace r2 r2.req_id rfl s1 hany, by simp [count]⟩

/-- Witness for C7: upserting `recA` then `recB` (same id, different
title) into the empty store yields exactly `recB` with an unchanged
count. -/
theorem c7_upsert_same_req_id_replaces_witness :
    get recB.req_id [recB] = some recB ∧ count [recB] = count [recA] :=
  c7_upsert_same_req_id_replaces recA recB [] [recA] [recB]
    (by decide) rfl rfl rfl

/-- C8: the empty query returns every stored record — the result length
equals the store count and the result is a permutation of the store — and
the result is sorted by `jobOrder`: most recently ingested first, ties
broken by requisition id ascending. -/
theorem c8_empty_query_returns_all_sorted (s : Store) :
    (search [] s).length = count s ∧
    (search [] s).Perm s ∧
    List.Sorted jobOrder (search [] s) := by
  have hs : search [] s = List.insertionSort jobOrder s := by
    simp [search]
  have hperm : (search [] s).Perm s := by
    rw [hs]
    exact List.perm_insertionSort jobOrder s
  refine ⟨by simpa [count] using hperm.length_eq, hperm, ?_⟩
  haveI : IsTotal JobRecord jobOrder := ⟨jobOrder_total⟩
  haveI : IsTrans JobRecord jobOrder := ⟨jobOrder_trans⟩
  rw [hs]
  exact List.sorted_insertionSort jobOrder s

/-- C9 counterexample: for the 501-character prompt `longPrompt` (500
letters and a final period, unchanged by escaping), the escaped prompt
exceeds 500 characters and yet the generated CLI command does contain the
full prompt — the 500 retained characters run into the appended "...",
whose first period completes the prompt. -/
theorem c9_command_can_contain_full_prompt :
    500 < (escapedOf longPrompt).length ∧
    containsStr (generateCliCommand longPrompt) longPrompt :=
  ⟨by decide, listInfixB_sound _ _ (by decide)⟩

/-- C9 (amended): the CLI command is exactly `claude -p "` followed by the
first 500 characters of the escaped prompt, then `..."`; consequently the
command is at most 515 characters long, and it cannot contain the full
prompt whenever the prompt itself exceeds 515 characters. -/
theorem c9_cli_command_truncates_escaped_prompt (g : Str) :
    generateCliCommand g
      = "claude -p \"".data ++ (escapedOf g).take 500 ++ "...\"".data ∧
    (515 < g.length → ¬ containsStr (generateCliCommand g) g) := by
  have hcmd : generateCliCommand g
      = "claude -p \"".data ++ (escapedOf g).take 500 ++ "...\"".data := by
    have hq : ("...\"" : String).data = "...".data ++ "\"".data := rfl
    simp only [generateCliCommand, hq]
    simp [List.append_assoc]
  refine ⟨hcmd, ?_⟩
  intro hg hc
  have hle := containsStr_length_le hc
  have hlen : (generateCliCommand g).length
      = 11 + min 500 (escapedOf g).length + 4 := by
    rw [hcmd, List.length_append, List.length_append, List.length_take]
    have h11 : ("claude -p \"".data).length = 11 := rfl
    have h4 : ("...\"".data).length = 4 := rfl
    omega
  omega

/-- Witness for C9 (amended) at the 516-character prompt. -/
theorem c9_cli_command_truncates_escaped_prompt_witness :
    generateCliCommand veryLongPrompt
      = "claude -p \"".data ++ (escapedOf veryLongPrompt).take 500 ++ "...\"".data ∧
    ¬ containsStr (generateCliCommand veryLongPrompt) veryLongPrompt :=
  ⟨(c9_cli_command_truncates_escaped_prompt veryLongPrompt).1,
   (c9_cli_command_truncates_escaped_prompt veryLongPrompt).2 (by decide)⟩

end SchwabJobs

